import Mathlib

/-!
# addTraefikRedisHost: configuration merge, validation and store commands

A shallow embedding of `main.go`.  The program reads a configuration from
command-line flags and from a JSON file, merges the two, validates the result,
and then issues a short sequence of `Del`/`Set` commands against a Redis store.

Modelling conventions:

* Go `string` is `String`; Go `int` is `Int` (no arithmetic is performed on the
  port, so no wrap-around can occur); Go `error` is `Option String`, with `none`
  for `nil` and `some msg` for `errors.New(msg)`.
* A Go zero value (`var c config`) is the structure with every field at its
  default, written `({} : config)`.
* The Redis client is an external library.  The calls made on it are recorded
  as a list of `Cmd`; their effect on the store is given by `Cmd.apply` on a
  map from keys to optional values.
* The `flag` package is an external library.  Its result is abstracted as the
  list of flag assignments found on the command line, applied in order to the
  registered defaults.
* Printing (`fmt.Println`, `pp`) is not modelled.
-/

namespace AddTraefikRedisHost

/-! ## Data model (main.go, lines 16-35) -/

/-- The `endpointConfig` struct. -/
structure endpointConfig where
  Domain : String := ""
  Host : String := ""
  IP : String := ""
deriving DecidableEq, Repr

/-- The `redisConfig` struct. -/
structure redisConfig where
  Host : String := ""
  Port : Int := 0
  User : String := ""
  Pwd : String := ""
deriving DecidableEq, Repr

/-- The `config` struct. -/
structure config where
  Endpoint : endpointConfig := {}
  Redis : redisConfig := {}
  cfg : String := ""
  printExampleCfg : Bool := false
  del : Bool := false
deriving DecidableEq, Repr

/-! ## Merging (main.go, lines 116-146) -/

/-- The function `strMerge`: the dominant string unless it is empty. -/
def strMerge (dom : String) (sub : String) : String :=
  if dom ≠ "" then dom else sub

/-- The function `mergeConfigs`: `fc` comes from the flags, `jc` from the file. -/
def mergeConfigs (fc : config) (jc : config) : config :=
  { Endpoint :=
      { Domain := strMerge fc.Endpoint.Domain jc.Endpoint.Domain
        Host := strMerge fc.Endpoint.Host jc.Endpoint.Host
        IP := strMerge fc.Endpoint.IP jc.Endpoint.IP }
    Redis :=
      { Host := strMerge fc.Redis.Host jc.Redis.Host
        Pwd := strMerge fc.Redis.Pwd jc.Redis.Pwd
        User := strMerge fc.Redis.User jc.Redis.User
        Port := if jc.Redis.Port ≠ 0 then jc.Redis.Port else fc.Redis.Port }
    cfg := ""
    printExampleCfg := false
    del := fc.del }

/-! ## Validation (main.go, lines 82-100) -/

/-- The function `verifyCfg`: `none` is Go's `nil` error. -/
def verifyCfg (cfg : config) : Option String :=
  if cfg.Endpoint.Domain = "" then some "Endpoint domain not specified!"
  else if cfg.Endpoint.Host = "" then some "Endpoint host not specified!"
  else if cfg.Endpoint.IP = "" then some "Endpoint IP not specified!"
  else if cfg.Redis.Host = "" then some "Redis host not specified!"
  else if cfg.Redis.Port = 0 then some "Redis port not specified!"
  else none

/-! ## Example configuration (main.go, lines 102-114) -/

/-- The configuration value that `printExampleCfg` builds and marshals. -/
def printExampleCfg : config :=
  { Redis := { Host := "1.2.3.4", Port := 6379, User := "username", Pwd := "password" }
    Endpoint := { Host := "host", Domain := "example.com", IP := "1.2.3.4" } }

/-! ## Flags (main.go, lines 148-165) -/

/-- One flag assignment found on the command line by `flag.Parse`. -/
inductive FlagSetting where
  | rh (v : String)
  | rP (v : Int)
  | ru (v : String)
  | rp (v : String)
  | ed (v : String)
  | eh (v : String)
  | ei (v : String)
  | cfg (v : String)
  | cfgxmpl (v : Bool)
  | rm (v : Bool)
deriving DecidableEq, Repr

/-- The defaults registered by `parseFlags` before `flag.Parse` runs. -/
def flagDefaults : config :=
  { Redis := { Host := "", Port := 6732, User := "", Pwd := "" }
    Endpoint := { Domain := "", Host := "", IP := "" }
    cfg := "cfg.json"
    printExampleCfg := false
    del := false }

/-- Store one flag assignment into the variable the flag is bound to. -/
def FlagSetting.store (c : config) : FlagSetting → config
  | .rh v => { c with Redis := { c.Redis with Host := v } }
  | .rP v => { c with Redis := { c.Redis with Port := v } }
  | .ru v => { c with Redis := { c.Redis with User := v } }
  | .rp v => { c with Redis := { c.Redis with Pwd := v } }
  | .ed v => { c with Endpoint := { c.Endpoint with Domain := v } }
  | .eh v => { c with Endpoint := { c.Endpoint with Host := v } }
  | .ei v => { c with Endpoint := { c.Endpoint with IP := v } }
  | .cfg v => { c with cfg := v }
  | .cfgxmpl v => { c with printExampleCfg := v }
  | .rm v => { c with del := v }

/-- The function `parseFlags`, on the flag assignments of the command line. -/
def parseFlags (args : List FlagSetting) : config :=
  args.foldl FlagSetting.store flagDefaults

/-! ## Store commands (main.go, lines 52-80) -/

/-- The fields of `redis.Options` that `connectToRedis` fills in. -/
structure Options where
  Addr : String
  Password : String
  DB : Int
deriving DecidableEq, Repr

/-- The function `connectToRedis`: the options the client is created with. -/
def connectToRedis (cfg : config) : Options :=
  { Addr := cfg.Redis.Host ++ ":" ++ toString cfg.Redis.Port
    Password := cfg.Redis.Pwd
    DB := 0 }

/-- A command sent through the Redis client. -/
inductive Cmd where
  | Del (key : String)
  | Set (key : String) (value : String) (expiration : Int)
deriving DecidableEq, Repr

/-- Local `bkey` of `main`. -/
def bkey (cfg : config) : String :=
  "traefik/http/services/" ++ cfg.Endpoint.Host ++ "/loadBalancer/servers/0/url"

/-- Local `skey` of `main`. -/
def skey (cfg : config) : String :=
  "traefik/http/routers/" ++ cfg.Endpoint.Host ++ "/service"

/-- Local `rkey` of `main`. -/
def rkey (cfg : config) : String :=
  "traefik/http/routers/" ++ cfg.Endpoint.Host ++ "/rule"

/-- Local `bval` of `main`. -/
def bval (cfg : config) : String :=
  "http://" ++ cfg.Endpoint.IP

/-- Local `sval` of `main`. -/
def sval (cfg : config) : String :=
  cfg.Endpoint.Host

/-- Local `rval` of `main`. -/
def rval (cfg : config) : String :=
  "Host(`" ++ cfg.Endpoint.Host ++ "." ++ cfg.Endpoint.Domain ++ "`)"

/-- The three key/value pairs `main` derives, in source order. -/
def derivedPairs (cfg : config) : List (String × String) :=
  [(bkey cfg, bval cfg), (skey cfg, sval cfg), (rkey cfg, rval cfg)]

/-- The commands `main` sends once the client exists (lines 63-71). -/
def storeCommands (cfg : config) : List Cmd :=
  [Cmd.Del (bkey cfg), Cmd.Del (skey cfg), Cmd.Del (rkey cfg)] ++
    (if !cfg.del then
      [Cmd.Set (bkey cfg) (bval cfg) 0, Cmd.Set (skey cfg) (sval cfg) 0,
        Cmd.Set (rkey cfg) (rval cfg) 0]
    else [])

/-- How a run of `main` ends. -/
inductive Outcome where
  | printedExample (c : config)
  | fatal (err : String)
  | ran (client : Options) (cmds : List Cmd)
deriving DecidableEq, Repr

/-- The function `main`, given what `parseFlags` and `readConfig` returned. -/
def main (flagcfg : config) (filecfg : config) : Outcome :=
  if flagcfg.printExampleCfg then Outcome.printedExample printExampleCfg
  else
    let cfg := mergeConfigs flagcfg filecfg
    match verifyCfg cfg with
    | some err => Outcome.fatal err
    | none => Outcome.ran (connectToRedis cfg) (storeCommands cfg)

/-- The client a run created, if any. -/
def Outcome.client : Outcome → Option Options
  | .ran client _ => some client
  | _ => none

/-- The store commands a run issued. -/
def Outcome.commands : Outcome → List Cmd
  | .ran _ cmds => cmds
  | _ => []

/-! ## The store as a map from keys to optional values -/

/-- A store state: the value held under each key, if any. -/
abbrev Store := String → Option String

/-- Effect of one command: `Del` removes the key, `Set` writes it. -/
def Cmd.apply (st : Store) : Cmd → Store
  | .Del key => fun k => if k = key then none else st k
  | .Set key value _ => fun k => if k = key then some value else st k

/-- Effect of a command sequence, first command first. -/
def runCmds (st : Store) (cmds : List Cmd) : Store :=
  cmds.foldl Cmd.apply st

/-- A store given by finitely many bindings, the first binding of a key winning. -/
def storeOf (kvs : List (String × String)) : Store :=
  fun k => (kvs.find? (fun kv => kv.1 = k)).map Prod.snd

/-! ## Concrete inputs -/

/-- The endpoint of the worked example: `svc1.example.com` at `10.0.0.5`. -/
def exampleEndpoint : endpointConfig :=
  { Domain := "example.com", Host := "svc1", IP := "10.0.0.5" }

/-- A configuration that passes validation, in register mode. -/
def exampleCfg : config :=
  { Endpoint := exampleEndpoint, Redis := { Host := "localhost", Port := 6379 } }

/-- The same configuration in delete mode (`-rm`). -/
def exampleDelCfg : config :=
  { exampleCfg with del := true }

/-- A command line naming the example endpoint and a store host, no `-rP`. -/
def exampleArgs : List FlagSetting :=
  [FlagSetting.rh "localhost", FlagSetting.ed "example.com", FlagSetting.eh "svc1",
    FlagSetting.ei "10.0.0.5"]

/-- A prior store in which the three example keys hold stale values. -/
def staleStore : Store :=
  storeOf
    [("traefik/http/services/svc1/loadBalancer/servers/0/url", "http://192.168.0.1"),
      ("traefik/http/routers/svc1/service", "old"),
      ("traefik/http/routers/svc1/rule", "Host(`old.example.org`)")]

/-! ## Helper lemmas -/

theorem strMerge_of_ne (dom sub : String) (h : dom ≠ "") : strMerge dom sub = dom := by
  simp [strMerge, h]

theorem strMerge_of_eq (dom sub : String) (h : dom = "") : strMerge dom sub = sub := by
  simp [strMerge, h]

theorem bkey_ne_skey (cfg : config) : bkey cfg ≠ skey cfg := by
  intro h
  have hd := congrArg String.data h
  simp [bkey, skey, String.data_append] at hd

theorem bkey_ne_rkey (cfg : config) : bkey cfg ≠ rkey cfg := by
  intro h
  have hd := congrArg String.data h
  simp [bkey, rkey, String.data_append] at hd

theorem skey_ne_rkey (cfg : config) : skey cfg ≠ rkey cfg := by
  intro h
  have hd := congrArg String.data h
  simp [skey, rkey, String.data_append] at hd

theorem storeCommands_of_del_false (cfg : config) (h : cfg.del = false) :
    storeCommands cfg =
      [Cmd.Del (bkey cfg), Cmd.Del (skey cfg), Cmd.Del (rkey cfg),
        Cmd.Set (bkey cfg) (bval cfg) 0, Cmd.Set (skey cfg) (sval cfg) 0,
        Cmd.Set (rkey cfg) (rval cfg) 0] := by
  simp [storeCommands, h]

theorem storeCommands_of_del_true (cfg : config) (h : cfg.del = true) :
    storeCommands cfg = [Cmd.Del (bkey cfg), Cmd.Del (skey cfg), Cmd.Del (rkey cfg)] := by
  simp [storeCommands, h]

theorem verifyCfg_eq_none_iff (c : config) :
    verifyCfg c = none ↔
      c.Endpoint.Domain ≠ "" ∧ c.Endpoint.Host ≠ "" ∧ c.Endpoint.IP ≠ "" ∧
        c.Redis.Host ≠ "" ∧ c.Redis.Port ≠ 0 := by
  unfold verifyCfg
  by_cases h1 : c.Endpoint.Domain = "" <;> by_cases h2 : c.Endpoint.Host = "" <;>
    by_cases h3 : c.Endpoint.IP = "" <;> by_cases h4 : c.Redis.Host = "" <;>
    by_cases h5 : c.Redis.Port = 0 <;> simp [h1, h2, h3, h4, h5]

/-! ## Merging -/

/-- C1: each of the six string fields of `mergeConfigs fc jc` is the flag value
when that value is not the empty string, and the file value otherwise. -/
theorem mergeConfigs_string_fields (fc jc : config) :
    ((fc.Endpoint.Domain ≠ "" →
          (mergeConfigs fc jc).Endpoint.Domain = fc.Endpoint.Domain) ∧
        (fc.Endpoint.Domain = "" →
          (mergeConfigs fc jc).Endpoint.Domain = jc.Endpoint.Domain)) ∧
      ((fc.Endpoint.Host ≠ "" → (mergeConfigs fc jc).Endpoint.Host = fc.Endpoint.Host) ∧
        (fc.Endpoint.Host = "" → (mergeConfigs fc jc).Endpoint.Host = jc.Endpoint.Host)) ∧
      ((fc.Endpoint.IP ≠ "" → (mergeConfigs fc jc).Endpoint.IP = fc.Endpoint.IP) ∧
        (fc.Endpoint.IP = "" → (mergeConfigs fc jc).Endpoint.IP = jc.Endpoint.IP)) ∧
      ((fc.Redis.Host ≠ "" → (mergeConfigs fc jc).Redis.Host = fc.Redis.Host) ∧
        (fc.Redis.Host = "" → (mergeConfigs fc jc).Redis.Host = jc.Redis.Host)) ∧
      ((fc.Redis.Pwd ≠ "" → (mergeConfigs fc jc).Redis.Pwd = fc.Redis.Pwd) ∧
        (fc.Redis.Pwd = "" → (mergeConfigs fc jc).Redis.Pwd = jc.Redis.Pwd)) ∧
      ((fc.Redis.User ≠ "" → (mergeConfigs fc jc).Redis.User = fc.Redis.User) ∧
        (fc.Redis.User = "" → (mergeConfigs fc jc).Redis.User = jc.Redis.User)) := by
  refine ⟨⟨?_, ?_⟩, ⟨?_, ?_⟩, ⟨?_, ?_⟩, ⟨?_, ?_⟩, ⟨?_, ?_⟩, ⟨?_, ?_⟩⟩ <;> intro h <;>
    first
      | exact strMerge_of_ne _ _ h
      | exact strMerge_of_eq _ _ h

/-- C2: the port of `mergeConfigs fc jc` is the file port when that is not 0,
and the flag port otherwise, whatever the flag port is. -/
theorem mergeConfigs_port (fc jc : config) :
    (jc.Redis.Port ≠ 0 → (mergeConfigs fc jc).Redis.Port = jc.Redis.Port) ∧
      (jc.Redis.Port = 0 → (mergeConfigs fc jc).Redis.Port = fc.Redis.Port) := by
  constructor <;> intro h <;> simp [mergeConfigs, h]

/-! ## Validation -/

/-- C3: `verifyCfg c` returns no error exactly when domain, host, IP and redis
host are non-empty and the port is not 0; replacing the redis user, the redis
password, the config path, the print-example toggle or the delete toggle never
changes the result. -/
theorem verifyCfg_ok_iff (c : config) :
    (verifyCfg c = none ↔
        c.Endpoint.Domain ≠ "" ∧ c.Endpoint.Host ≠ "" ∧ c.Endpoint.IP ≠ "" ∧
          c.Redis.Host ≠ "" ∧ c.Redis.Port ≠ 0) ∧
      (∀ (user pwd path : String) (pe del : Bool),
        verifyCfg
            { c with
              Redis := { c.Redis with User := user, Pwd := pwd }
              cfg := path
              printExampleCfg := pe
              del := del } =
          verifyCfg c) :=
  ⟨verifyCfg_eq_none_iff c, fun _ _ _ _ _ => rfl⟩

/-- C4: when `verifyCfg` fails, the error is that of the first failing check in
the order domain, host, IP, redis host, redis port. -/
theorem verifyCfg_first_error (c : config) :
    (c.Endpoint.Domain = "" → verifyCfg c = some "Endpoint domain not specified!") ∧
      (c.Endpoint.Domain ≠ "" → c.Endpoint.Host = "" →
        verifyCfg c = some "Endpoint host not specified!") ∧
      (c.Endpoint.Domain ≠ "" → c.Endpoint.Host ≠ "" → c.Endpoint.IP = "" →
        verifyCfg c = some "Endpoint IP not specified!") ∧
      (c.Endpoint.Domain ≠ "" → c.Endpoint.Host ≠ "" → c.Endpoint.IP ≠ "" →
        c.Redis.Host = "" → verifyCfg c = some "Redis host not specified!") ∧
      (c.Endpoint.Domain ≠ "" → c.Endpoint.Host ≠ "" → c.Endpoint.IP ≠ "" →
        c.Redis.Host ≠ "" → c.Redis.Port = 0 →
        verifyCfg c = some "Redis port not specified!") := by
  refine ⟨?_, ?_, ?_, ?_, ?_⟩
  · intro h1
    simp [verifyCfg, h1]
  · intro h1 h2
    simp [verifyCfg, h1, h2]
  · intro h1 h2 h3
    simp [verifyCfg, h1, h2, h3]
  · intro h1 h2 h3 h4
    simp [verifyCfg, h1, h2, h3, h4]
  · intro h1 h2 h3 h4 h5
    simp [verifyCfg, h1, h2, h3, h4, h5]

/-! ## Derived keys and values -/

/-- C5: for every endpoint with domain `d`, host `h` and IP `i`, the three pairs
derived by `main` are the url key with `http://i`, the service key with `h`, and
the rule key with the `Host` rule for `h.d`; for the endpoint `svc1`,
`example.com`, `10.0.0.5` they are the three literal pairs of the worked
example, and these are the keys and values of the commands `main` sends. -/
theorem derivedPairs_spec (d h i : String) (rest : config) :
    derivedPairs { rest with Endpoint := { Domain := d, Host := h, IP := i } } =
        [("traefik/http/services/" ++ h ++ "/loadBalancer/servers/0/url", "http://" ++ i),
          ("traefik/http/routers/" ++ h ++ "/service", h),
          ("traefik/http/routers/" ++ h ++ "/rule", "Host(`" ++ h ++ "." ++ d ++ "`)")] ∧
      derivedPairs
          { rest with
            Endpoint := { Domain := "example.com", Host := "svc1", IP := "10.0.0.5" } } =
        [("traefik/http/services/svc1/loadBalancer/servers/0/url", "http://10.0.0.5"),
          ("traefik/http/routers/svc1/service", "svc1"),
          ("traefik/http/routers/svc1/rule", "Host(`svc1.example.com`)")] ∧
      (main (parseFlags exampleArgs) {}).commands =
        [Cmd.Del "traefik/http/services/svc1/loadBalancer/servers/0/url",
          Cmd.Del "traefik/http/routers/svc1/service",
          Cmd.Del "traefik/http/routers/svc1/rule",
          Cmd.Set "traefik/http/services/svc1/loadBalancer/servers/0/url" "http://10.0.0.5" 0,
          Cmd.Set "traefik/http/routers/svc1/service" "svc1" 0,
          Cmd.Set "traefik/http/routers/svc1/rule" "Host(`svc1.example.com`)" 0] := by
  refine ⟨rfl, ?_, ?_⟩
  · simp only [derivedPairs, bkey, skey, rkey, bval, sval, rval]
    decide
  · decide

/-! ## Effect on the store -/

/-- C6: in register mode (`del = false`), after the command sequence of `main`
the url key holds `http://ip`, the service key holds the host and the rule key
holds the `Host` rule, whatever the store held before; the three derived keys
are pairwise distinct. -/
theorem register_sets_keys (st : Store) (cfg : config) (h : cfg.del = false) :
    runCmds st (storeCommands cfg) (bkey cfg) = some ("http://" ++ cfg.Endpoint.IP) ∧
      runCmds st (storeCommands cfg) (skey cfg) = some cfg.Endpoint.Host ∧
      runCmds st (storeCommands cfg) (rkey cfg) =
        some ("Host(`" ++ cfg.Endpoint.Host ++ "." ++ cfg.Endpoint.Domain ++ "`)") ∧
      bkey cfg ≠ skey cfg ∧ bkey cfg ≠ rkey cfg ∧ skey cfg ≠ rkey cfg := by
  have hbs := bkey_ne_skey cfg
  have hbr := bkey_ne_rkey cfg
  have hsr := skey_ne_rkey cfg
  rw [storeCommands_of_del_false cfg h]
  refine ⟨?_, ?_, ?_, hbs, hbr, hsr⟩
  · simp [runCmds, Cmd.apply, hbs, hbr, bval]
  · simp [runCmds, Cmd.apply, hsr, sval]
  · simp [runCmds, Cmd.apply, rval]

/-- Witness for C6: the example configuration run against a store holding stale
values under all three keys. -/
theorem register_sets_keys_witness :
    exampleCfg.del = false ∧
      (runCmds staleStore (storeCommands exampleCfg) (bkey exampleCfg) =
          some ("http://" ++ exampleCfg.Endpoint.IP) ∧
        runCmds staleStore (storeCommands exampleCfg) (skey exampleCfg) =
          some exampleCfg.Endpoint.Host ∧
        runCmds staleStore (storeCommands exampleCfg) (rkey exampleCfg) =
          some ("Host(`" ++ exampleCfg.Endpoint.Host ++ "." ++
            exampleCfg.Endpoint.Domain ++ "`)") ∧
        bkey exampleCfg ≠ skey exampleCfg ∧ bkey exampleCfg ≠ rkey exampleCfg ∧
          skey exampleCfg ≠ rkey exampleCfg) :=
  ⟨by decide, register_sets_keys staleStore exampleCfg (by decide)⟩

/-- C7: in delete mode (`del = true`), after the command sequence of `main` all
three derived keys are absent, whatever the store held before. -/
theorem delete_removes_keys (st : Store) (cfg : config) (h : cfg.del = true) :
    runCmds st (storeCommands cfg) (bkey cfg) = none ∧
      runCmds st (storeCommands cfg) (skey cfg) = none ∧
      runCmds st (storeCommands cfg) (rkey cfg) = none := by
  rw [storeCommands_of_del_true cfg h]
  refine ⟨?_, ?_, ?_⟩
  · simp [runCmds, Cmd.apply]
  · simp [runCmds, Cmd.apply]
  · simp [runCmds, Cmd.apply]

/-- Witness for C7: the example configuration in delete mode, run against a
store holding values under all three keys. -/
theorem delete_removes_keys_witness :
    exampleDelCfg.del = true ∧
      (runCmds staleStore (storeCommands exampleDelCfg) (bkey exampleDelCfg) = none ∧
        runCmds staleStore (storeCommands exampleDelCfg) (skey exampleDelCfg) = none ∧
        runCmds staleStore (storeCommands exampleDelCfg) (rkey exampleDelCfg) = none) :=
  ⟨by decide, delete_removes_keys staleStore exampleDelCfg (by decide)⟩

/-! ## Validation failure and the store -/

/-- C8, as stated, fails when `-cfgxmpl` is given: the merged configuration has
an empty domain and `verifyCfg` rejects it, yet `main` prints the example and
returns instead of failing with the validation error. -/
theorem printExample_run_not_fatal :
    (mergeConfigs (parseFlags [FlagSetting.cfgxmpl true]) {}).Endpoint.Domain = "" ∧
      verifyCfg (mergeConfigs (parseFlags [FlagSetting.cfgxmpl true]) {}) =
        some "Endpoint domain not specified!" ∧
      main (parseFlags [FlagSetting.cfgxmpl true]) {} =
        Outcome.printedExample printExampleCfg ∧
      main (parseFlags [FlagSetting.cfgxmpl true]) {} ≠
        Outcome.fatal "Endpoint domain not specified!" := by
  decide

/-- C8, amended: if the merged configuration has an empty domain, host, IP or
redis host, or port 0, then `verifyCfg` returns an error and `main` creates no
client and issues no store command; when the print-example toggle is off, `main`
fails with exactly that validation error. -/
theorem invalid_config_no_store (flagcfg filecfg : config)
    (h : (mergeConfigs flagcfg filecfg).Endpoint.Domain = "" ∨
      (mergeConfigs flagcfg filecfg).Endpoint.Host = "" ∨
      (mergeConfigs flagcfg filecfg).Endpoint.IP = "" ∨
      (mergeConfigs flagcfg filecfg).Redis.Host = "" ∨
      (mergeConfigs flagcfg filecfg).Redis.Port = 0) :
    ∃ err, verifyCfg (mergeConfigs flagcfg filecfg) = some err ∧
      (main flagcfg filecfg).client = none ∧
      (main flagcfg filecfg).commands = [] ∧
      (flagcfg.printExampleCfg = false → main flagcfg filecfg = Outcome.fatal err) := by
  have hne : verifyCfg (mergeConfigs flagcfg filecfg) ≠ none := by
    intro hnone
    obtain ⟨h1, h2, h3, h4, h5⟩ := (verifyCfg_eq_none_iff _).mp hnone
    rcases h with h | h | h | h | h
    · exact h1 h
    · exact h2 h
    · exact h3 h
    · exact h4 h
    · exact h5 h
  obtain ⟨err, herr⟩ := Option.ne_none_iff_exists'.mp hne
  refine ⟨err, herr, ?_, ?_, ?_⟩
  · by_cases hp : flagcfg.printExampleCfg = true
    · simp [main, hp, Outcome.client]
    · simp [main, hp, herr, Outcome.client]
  · by_cases hp : flagcfg.printExampleCfg = true
    · simp [main, hp, Outcome.commands]
    · simp [main, hp, herr, Outcome.commands]
  · intro hp
    simp [main, hp, herr]

/-- Witness for C8 amended: flags naming only a store host, and no config file. -/
theorem invalid_config_no_store_witness :
    ((mergeConfigs (parseFlags [FlagSetting.rh "localhost"]) {}).Endpoint.Domain = "" ∨
        (mergeConfigs (parseFlags [FlagSetting.rh "localhost"]) {}).Endpoint.Host = "" ∨
        (mergeConfigs (parseFlags [FlagSetting.rh "localhost"]) {}).Endpoint.IP = "" ∨
        (mergeConfigs (parseFlags [FlagSetting.rh "localhost"]) {}).Redis.Host = "" ∨
        (mergeConfigs (parseFlags [FlagSetting.rh "localhost"]) {}).Redis.Port = 0) ∧
      ∃ err, verifyCfg (mergeConfigs (parseFlags [FlagSetting.rh "localhost"]) {}) = some err ∧
        (main (parseFlags [FlagSetting.rh "localhost"]) {}).client = none ∧
        (main (parseFlags [FlagSetting.rh "localhost"]) {}).commands = [] ∧
        ((parseFlags [FlagSetting.rh "localhost"]).printExampleCfg = false →
          main (parseFlags [FlagSetting.rh "localhost"]) {} = Outcome.fatal err) :=
  ⟨by decide,
    invalid_config_no_store (parseFlags [FlagSetting.rh "localhost"]) {} (by decide)⟩

/-! ## Number of store commands -/

/-- C9, as stated, fails: a configuration that passes validation leads to six
store commands in register mode and to three in delete mode, never to five. -/
theorem storeCommands_length_ne_five :
    verifyCfg exampleCfg = none ∧ (storeCommands exampleCfg).length = 6 ∧
      (storeCommands exampleCfg).length ≠ 5 ∧
      verifyCfg exampleDelCfg = none ∧ (storeCommands exampleDelCfg).length = 3 ∧
      (storeCommands exampleDelCfg).length ≠ 5 ∧
      (main (parseFlags exampleArgs) {}).commands.length = 6 := by
  decide

/-- C9, amended: for every configuration that passes validation, the commands
are the three deletes (url key, service key, rule key) followed by no set when
`del` is true and by the three sets, in the same key order and with expiration
0, when `del` is false: three or six commands; and these are the commands of
every run of `main` that merges to this configuration with the print-example
toggle off. -/
theorem storeCommands_shape (cfg : config) (hv : verifyCfg cfg = none) :
    storeCommands cfg =
        [Cmd.Del (bkey cfg), Cmd.Del (skey cfg), Cmd.Del (rkey cfg)] ++
          (if cfg.del = true then []
          else
            [Cmd.Set (bkey cfg) (bval cfg) 0, Cmd.Set (skey cfg) (sval cfg) 0,
              Cmd.Set (rkey cfg) (rval cfg) 0]) ∧
      (storeCommands cfg).length = (if cfg.del = true then 3 else 6) ∧
      (∀ flagcfg filecfg : config, flagcfg.printExampleCfg = false →
        mergeConfigs flagcfg filecfg = cfg →
        main flagcfg filecfg = Outcome.ran (connectToRedis cfg) (storeCommands cfg)) := by
  refine ⟨?_, ?_, ?_⟩
  · by_cases hd : cfg.del = true <;> simp [storeCommands, hd]
  · by_cases hd : cfg.del = true <;> simp [storeCommands, hd]
  · intro flagcfg filecfg hp hm
    simp [main, hp, hm, hv]

/-- Witness for C9 amended: the example configuration, in register mode. -/
theorem storeCommands_shape_witness :
    verifyCfg exampleCfg = none ∧
      (storeCommands exampleCfg =
          [Cmd.Del (bkey exampleCfg), Cmd.Del (skey exampleCfg), Cmd.Del (rkey exampleCfg)] ++
            (if exampleCfg.del = true then []
            else
              [Cmd.Set (bkey exampleCfg) (bval exampleCfg) 0,
                Cmd.Set (skey exampleCfg) (sval exampleCfg) 0,
                Cmd.Set (rkey exampleCfg) (rval exampleCfg) 0]) ∧
        (storeCommands exampleCfg).length = (if exampleCfg.del = true then 3 else 6) ∧
        (∀ flagcfg filecfg : config, flagcfg.printExampleCfg = false →
          mergeConfigs flagcfg filecfg = exampleCfg →
          main flagcfg filecfg =
            Outcome.ran (connectToRedis exampleCfg) (storeCommands exampleCfg))) :=
  ⟨by decide, storeCommands_shape exampleCfg (by decide)⟩

/-! ## Default port -/

/-- C10 evaluated on the code: with no `-rP` flag and no port in the file, the
merged port is the flag default 6732, not the Redis standard port 6379 that
`printExampleCfg` writes, and the client is created for port 6732. -/
theorem default_port_is_6732 :
    (parseFlags exampleArgs).Redis.Port = 6732 ∧
      (mergeConfigs (parseFlags exampleArgs) {}).Redis.Port = 6732 ∧
      (mergeConfigs (parseFlags exampleArgs) {}).Redis.Port ≠ 6379 ∧
      printExampleCfg.Redis.Port = 6379 ∧
      (main (parseFlags exampleArgs) {}).client =
        some { Addr := "localhost:6732", Password := "", DB := 0 } := by
  decide

end AddTraefikRedisHost
